import Mathlib

/-!
Verification development for the notification delivery pipeline
(`services/notification_queue/notification_queue_v3.py`).

The Python service is shallowly embedded: the relational store, the
per-user preference JSON and the two in-memory queues become explicit
Lean data; every embedded definition mirrors the corresponding Python
function line by line (same branch order, same truthiness tests, same
uncaught-exception points, which are modelled as `Except.error`).
External side effects (Twilio, SMTP, Slack relay, websocket flow) are
modelled by boolean oracles in `Env` that say whether the external call
raises; the code catches such errors exactly where the Python `try`
blocks sit.
-/

namespace NotifQ

/-! ## String primitives

Python string operations re-implemented structurally over `List Char`
so that every definition reduces by `rfl`/`decide`:
`str.split(sep)`, `str.strip()`, `in` (substring test), `startswith`,
`str.replace`, and `float(...)` on plain decimal literals. -/

/-- Python `str.split(sep)` on the character list: `"a:b"` gives `["a","b"]`,
`""` gives `[""]`, `"a::b"` gives `["a","","b"]`. -/
def splitChars (sep : Char) : List Char → List (List Char)
  | [] => [[]]
  | c :: cs =>
    let r := splitChars sep cs
    if c == sep then [] :: r
    else
      match r with
      | [] => [[c]]
      | g :: gs => (c :: g) :: gs

/-- Python `s.split(sep)` for a one-character separator. -/
def pySplit (s : String) (sep : Char) : List String :=
  (splitChars sep s.toList).map String.mk

/-- Whitespace characters recognised by Python `str.strip()`. -/
def isSpaceChar (c : Char) : Bool :=
  c == ' ' || c == '\t' || c == '\n' || c == '\r'

/-- Python `s.strip()`. -/
def pyStrip (s : String) : String :=
  String.mk (((s.toList.dropWhile isSpaceChar).reverse.dropWhile isSpaceChar).reverse)

/-- Does `needle` occur at the head of `hay`? -/
def charsLead : List Char → List Char → Bool
  | [], _ => true
  | _ :: _, [] => false
  | a :: as, b :: bs => a == b && charsLead as bs

/-- Does `needle` occur anywhere inside `hay`? -/
def charsContain (needle : List Char) (hay : List Char) : Bool :=
  match hay with
  | [] => charsLead needle []
  | _ :: cs => charsLead needle hay || charsContain needle cs

/-- Python `needle in hay` on strings. -/
def pyIn (needle hay : String) : Bool :=
  charsContain needle.toList hay.toList

/-- Python `hay.startswith(needle)`. -/
def pyStartsWith (hay needle : String) : Bool :=
  charsLead needle.toList hay.toList

/-- Python `s.replace(a, b)` for single characters (used for `' ' -> 'T'`). -/
def replaceChar (a b : Char) (s : String) : String :=
  String.mk (s.toList.map (fun c => if c == a then b else c))

/-- Value of one decimal digit, `none` for any other character. -/
def digitVal? (c : Char) : Option Nat :=
  if c.isDigit then some (c.toNat - '0'.toNat) else none

/-- Accumulate a digit string into a natural number; `none` on a non-digit. -/
def digitsValAux : List Char → Nat → Option Nat
  | [], acc => some acc
  | c :: cs, acc =>
    match digitVal? c with
    | some d => digitsValAux cs (acc * 10 + d)
    | none => none

/-- Parse a non-empty digit string. -/
def digitsVal? (cs : List Char) : Option Nat :=
  if cs.isEmpty then none else digitsValAux cs 0

/-- Models Python `float(...)` on plain decimal literals (optional sign,
optional fractional part), returning an exact rational; `none` models the
`ValueError` that `float` raises on a non-numeric string.  Exponent and
infinity forms are not needed by the filter strings considered here. -/
def parseFloat? (s : String) : Option Rat :=
  let cs := (pyStrip s).toList
  let sgn : Int := match cs with
    | '-' :: _ => -1
    | _ => 1
  let body : List Char := match cs with
    | '-' :: rest => rest
    | '+' :: rest => rest
    | _ => cs
  match splitChars '.' body with
  | [ip] => (digitsVal? ip).map (fun n => ((sgn * n : Int) : Rat))
  | [ip, fp] =>
    if ip.isEmpty && fp.isEmpty then none
    else
      let ipv := if ip.isEmpty then some 0 else digitsVal? ip
      let fpv := if fp.isEmpty then some 0 else digitsVal? fp
      match ipv, fpv with
      | some a, some b =>
        some ((sgn : Rat) * ((a : Rat) + (b : Rat) / ((10 : Rat) ^ fp.length)))
      | _, _ => none
  | _ => none

/-- Python truthiness of an optional string (`None` and `""` are falsy). -/
def pyTruthyStr : Option String → Bool
  | none => false
  | some s => !s.toList.isEmpty

/-- Python truthiness of an optional integer (`None` and `0` are falsy). -/
def pyTruthyOptInt : Option Int → Bool
  | none => false
  | some n => !(n == 0)

/-! ## Property-filter machinery (`process_gcn_notification`, lines 593-622)

A filter string `name:value:operator` is evaluated against one event
property-set (a dict of numeric values).  The embedding mirrors the
Python loop exactly: malformed split raises; a filter whose name is not
in the property-set is skipped; a non-numeric value or an unknown
operator raises only after the name was found; a failing comparison
breaks out of the filter loop with result `False`. -/

/-- `op_options` from the source. -/
def op_options : List String := ["lt", "le", "eq", "ne", "ge", "gt"]

/-- `getattr(operator, op)` applied to `(a, b)` for the six allowed names. -/
def applyOp (op : String) (a b : Rat) : Bool :=
  if op == "lt" then decide (a < b)
  else if op == "le" then decide (a ≤ b)
  else if op == "eq" then a == b
  else if op == "ne" then !(a == b)
  else if op == "ge" then decide (b ≤ a)
  else if op == "gt" then decide (b < a)
  else false

/-- The inner `for prop_filt in gcn_pref["gcn_properties"]` loop evaluated
against one property-set `pd`; `Except.error` models the uncaught
`ValueError`, `.ok false` the `break` after a failing comparison. -/
def props_pass (pd : List (String × Rat)) : List String → Except String Bool
  | [] => .ok true
  | pf :: rest =>
    match pySplit pf ':' with
    | [p0, p1, p2] =>
      match pd.lookup (pyStrip p0) with
      | none => props_pass pd rest
      | some stored =>
        match parseFloat? (pyStrip p1) with
        | none => .error "Invalid propertiesFilter value: could not convert string to float"
        | some v =>
          let op := pyStrip p2
          if op_options.contains op then
            if applyOp op stored v then props_pass pd rest else .ok false
          else .error "Invalid operator"
    | _ => .error "Invalid propertiesFilter value -- property filter must have 3 values"

/-- Error-propagating map used for the `properties_bool` accumulation. -/
def mapME (f : α → Except String β) : List α → Except String (List β)
  | [] => .ok []
  | a :: as =>
    match f a with
    | .error e => .error e
    | .ok b =>
      match mapME f as with
      | .error e => .error e
      | .ok bs => .ok (b :: bs)

/-- The whole `properties_bool` / `any(properties_bool)` block: OR over the
event property-sets of the AND over the profile's filters. -/
def gcn_properties_check (sets : List (List (String × Rat))) (filters : List String) :
    Except String Bool :=
  match mapME (fun pd => props_pass pd filters) sets with
  | .error e => .error e
  | .ok bs => .ok (bs.any id)

/-- Declarative well-formedness of one filter string: it splits in three,
its value parses as a number and its operator is allowed. -/
def filter_wf (f : String) : Bool :=
  match pySplit f ':' with
  | [_, p1, p2] => (parseFloat? (pyStrip p1)).isSome && op_options.contains (pyStrip p2)
  | _ => false

/-- Declarative satisfaction of one well-formed filter by one property-set:
`stored_value <operator> filter_value`, with a filter on an absent property
name vacuously satisfied (as in the source). -/
def filter_sat (pd : List (String × Rat)) (f : String) : Bool :=
  match pySplit f ':' with
  | [p0, p1, p2] =>
    match pd.lookup (pyStrip p0), parseFloat? (pyStrip p1) with
    | none, _ => true
    | some stored, some v => applyOp (pyStrip p2) stored v
    | some _, none => false
  | _ => false

/-! ## Data model

Preference JSON, user rows, domain rows and the two queues.  The
preference tree keeps association lists exactly where Python indexes a
dict (so a missing key is observable, as `KeyError` reachability depends
on it); leaf values read with `.get(key, default)` in the source become
plain fields with that default. -/

/-- `user.preferences["slack_integration"]`. -/
structure SlackIntegration where
  active : Bool := false
  url : Option String := none

/-- One channel entry, e.g. `prefs[resource_type]["sms"]`: `active` is read
with `.get("active", False)`, `on_shift` with `.get("on_shift", False)`,
`time_slot` with `.get("time_slot", [])`. -/
structure ChannelEntry where
  active : Bool := false
  on_shift : Bool := false
  time_slot : List Int := []

/-- One named alert-event profile (a value of the
`notifications.gcn_events.properties` dict); each list is read with
`.get(key, [])`. -/
structure GcnProfile where
  gcn_notice_types : List String := []
  gcn_tags : List String := []
  gcn_properties : List String := []
  localization_tags : List String := []
  localization_properties : List String := []

/-- One resource-type entry of the `notifications` dict
(e.g. `notifications["gcn_events"]`): boolean sub-flags, the per-channel
sub-dicts (an association list, key presence matters), and for
`gcn_events` the named profiles (`properties` dict values). -/
structure ResourceEntry where
  active : Bool := false
  new_tags : Bool := false
  new_comments : Bool := false
  new_bot_comments : Bool := false
  new_classifications : Bool := false
  new_spectra : Bool := false
  channels : List (String × ChannelEntry) := []
  profiles : List GcnProfile := []

/-- `user.preferences`: both top-level keys are optional, and the
`notifications` dict is an association list keyed by resource type. -/
structure UserPrefs where
  slack_integration : Option SlackIntegration := none
  notifications : Option (List (String × ResourceEntry)) := none

/-- A `User` row, with the columns the service reads. -/
structure DBUser where
  id : Nat
  username : String := ""
  contact_email : Option String := none
  contact_phone : Option String := none
  preferences : UserPrefs := {}

/-- JSON path `preferences["notifications"][rt]` (NULL-propagating, as in
the `astext.cast(Boolean)` selects). -/
def pref_resource (u : DBUser) (rt : String) : Option ResourceEntry :=
  match u.preferences.notifications with
  | none => none
  | some m => m.lookup rt

/-- A boolean preference flag under `notifications[rt]`; a missing path is
`False` (SQL `NULL.is_(True)` and Python `.get(..., False)` agree). -/
def pref_flag (u : DBUser) (rt : String) (f : ResourceEntry → Bool) : Bool :=
  ((pref_resource u rt).map f).getD false

def gcn_active (u : DBUser) : Bool := pref_flag u "gcn_events" (·.active)
def gcn_new_tags (u : DBUser) : Bool := pref_flag u "gcn_events" (·.new_tags)
def followupActive (u : DBUser) : Bool := pref_flag u "followup_requests" (·.active)
def obsplanActive (u : DBUser) : Bool := pref_flag u "observation_plans" (·.active)
def favActive (u : DBUser) : Bool := pref_flag u "favorite_sources" (·.active)
def favNewComments (u : DBUser) : Bool := pref_flag u "favorite_sources" (·.new_comments)
def favNewBotComments (u : DBUser) : Bool := pref_flag u "favorite_sources" (·.new_bot_comments)
def favNewClassifications (u : DBUser) : Bool :=
  pref_flag u "favorite_sources" (·.new_classifications)
def favNewSpectra (u : DBUser) : Bool := pref_flag u "favorite_sources" (·.new_spectra)
def sourcesActive (u : DBUser) : Bool := pref_flag u "sources" (·.active)
def sourcesNewSpectra (u : DBUser) : Bool := pref_flag u "sources" (·.new_spectra)

/-- `user.preferences.get("notifications", {}).get("gcn_events", {}).get("properties", {})`,
as the list of profile values. -/
def gcn_profiles (u : DBUser) : List GcnProfile :=
  ((pref_resource u "gcn_events").map (·.profiles)).getD []

/-- A `GcnNotice` row; `notice_type` stands for `gcn.NoticeType(x).name`. -/
structure GcnNoticeRec where
  id : Nat
  dateobs : String
  notice_type : String

/-- A `GcnTag` row. -/
structure GcnTagRec where
  id : Nat
  dateobs : String
  text : String

/-- A `Localization` row together with the `get_skymap_properties` output
(`loc_properties`, `loc_tags`). -/
structure LocalizationRec where
  id : Nat
  dateobs : String
  notice_id : Option Nat := none
  loc_tags : List String := []
  loc_properties : List (String × Rat) := []

/-- A `GcnEvent` row: `tags`, the `properties[*].data` dicts, the
`gcn_notices` relationship and the localization ids. -/
structure GcnEventRec where
  dateobs : String
  tags : List String := []
  properties : List (List (String × Rat)) := []
  gcn_notices : List GcnNoticeRec := []
  localizations : List Nat := []

/-- A `FollowupRequest` row. -/
structure FollowupRec where
  id : Nat
  status : String
  allocation_id : Int

/-- An `EventObservationPlan` row. -/
structure ObsPlanRec where
  id : Nat
  dateobs : String

/-- A `Comment` row. -/
structure CommentRec where
  id : Nat
  obj_id : String
  bot : Bool := false

/-- A `Classification` row. -/
structure ClassificationRec where
  id : Nat
  obj_id : String

/-- A `Spectrum` row. -/
structure SpectrumRec where
  id : Nat
  obj_id : String

/-- A `GroupAdmissionRequest` row with the joined requester and group. -/
structure GroupAdmRec where
  id : Nat
  group_id : Nat
  requester_username : String
  group_name : String

/-- A `GroupUser` row. -/
structure GroupUserRec where
  user_id : Nat
  group_id : Nat
  admin : Bool := false

/-- A `Listing` row. -/
structure ListingRec where
  user_id : Nat
  obj_id : String
  list_name : String

/-- The read side of the relational store, as the resolvers query it.
`canRead u a` models the row-level `Allocation.select(user, mode="read")`
authorization check. -/
structure Store where
  users : List DBUser := []
  gcnTags : List GcnTagRec := []
  gcnEvents : List GcnEventRec := []
  gcnNotices : List GcnNoticeRec := []
  localizations : List LocalizationRec := []
  followupRequests : List FollowupRec := []
  observationPlans : List ObsPlanRec := []
  comments : List CommentRec := []
  classifications : List ClassificationRec := []
  spectra : List SpectrumRec := []
  groupAdmissionRequests : List GroupAdmRec := []
  groupUsers : List GroupUserRec := []
  listings : List ListingRec := []
  allocations : List Int := []
  canRead : Nat → Int → Bool := fun _ _ => false

/-- The trigger payload the API receives: `target_class_name`, `target_id`
and the optional kind-specific ids (present with value `None` when not
supplied). -/
structure EventData where
  target_class_name : String
  target_id : Nat
  allocation_id : Option Int := none
  obj_id : Option String := none

/-- The embedded user snapshot placed into a delivery target
(`notification.user.to_dict()` plus `preferences`). -/
structure TUser where
  id : Nat
  contact_email : Option String := none
  contact_phone : Option String := none
  preferences : Option UserPrefs := none

/-- One delivery-queue dict: the persisted `UserNotification` columns plus
the user snapshot and the optional rendered `content`. -/
structure DeliveryTarget where
  user_id : Option Nat := none
  text : String := ""
  notification_type : Option String := none
  url : String := ""
  user : Option TUser := none
  content : Option Unit := none

/-- `notification.user.to_dict()` plus `preferences` (always present for
processor-built targets). -/
def mk_user_snapshot (u : DBUser) : TUser :=
  { id := u.id, contact_email := u.contact_email, contact_phone := u.contact_phone,
    preferences := some u.preferences }

/-- Persist a `UserNotification` and wrap it into the delivery-queue dict. -/
def mk_target (u : DBUser) (text nt url : String) (content : Option Unit) : DeliveryTarget :=
  { user_id := some u.id, text := text, notification_type := some nt, url := url,
    user := some (mk_user_snapshot u), content := content }

/-! ## `process_gcn_notification` (lines 510-701) -/

/-- The candidate-user select: `gcn_events.active` is true, and for a
`GcnTag` trigger additionally `gcn_events.new_tags`. -/
def gcn_candidate (tcn : String) (u : DBUser) : Bool :=
  gcn_active u && (!(tcn == "GcnTag") || gcn_new_tags u)

/-- Non-empty intersection test, `list(set(a) & set(b))` followed by a
length check. -/
def hasCommonStr (a b : List String) : Bool :=
  a.any (fun x => b.contains x)

/-- The per-profile evaluation context: trigger kind, the matched notice's
type name, the event's tags and property-sets, and the localization row
(fetched when the trigger is not a bare notice; the source re-runs that
select inside the profile loop, always with the same result). -/
structure GcnCtx where
  target_class_name : String
  notice_type : String
  event_tags : List String
  event_properties : List (List (String × Rat))
  localization : Option LocalizationRec

/-- The `for prop_filt in gcn_pref.get("localization_properties", [])`
loop.  It can raise on a malformed filter, but the failing-comparison
branch executes `continue`, which in the source binds to this innermost
filter loop — so the comparison result never affects the profile match. -/
def localization_props_loop (lpd : List (String × Rat)) : List String → Except String Unit
  | [] => .ok ()
  | pf :: rest =>
    match pySplit pf ':' with
    | [p0, p1, p2] =>
      match lpd.lookup (pyStrip p0) with
      | none => localization_props_loop lpd rest
      | some _stored =>
        match parseFloat? (pyStrip p1) with
        | none => .error "Invalid propertiesFilter value: could not convert string to float"
        | some _v =>
          if op_options.contains (pyStrip p2) then localization_props_loop lpd rest
          else .error "Invalid operator"
    | _ => .error "Invalid propertiesFilter value -- property filter must have 3 values"

/-- Does one named profile match the event?  Checks in source order:
notice-type allowlist, tag allowlist, numeric property filters, then (for
non-notice triggers) localization tag and property filters.  `.ok false`
models the `continue` to the next profile, `.error` an uncaught
`ValueError`. -/
def profile_step (ctx : GcnCtx) (p : GcnProfile) : Except String Bool :=
  if !p.gcn_notice_types.isEmpty && !(p.gcn_notice_types.contains ctx.notice_type) then
    .ok false
  else if !p.gcn_tags.isEmpty && !(hasCommonStr ctx.event_tags p.gcn_tags) then
    .ok false
  else
    match (if !p.gcn_properties.isEmpty then
             gcn_properties_check ctx.event_properties p.gcn_properties
           else .ok true) with
    | .error e => .error e
    | .ok false => .ok false
    | .ok true =>
      if ctx.target_class_name == "GcnNotice" then .ok true
      else
        match ctx.localization with
        | none => .error "AttributeError: localization not found"
        | some loc =>
          if !p.localization_tags.isEmpty &&
              !(hasCommonStr loc.loc_tags p.localization_tags) then
            .ok false
          else
            match localization_props_loop loc.loc_properties p.localization_properties with
            | .error e => .error e
            | .ok () => .ok true

/-- The `for gcn_pref in gcn_prefs.values()` loop for one user: each
matching profile persists a `UserNotification` and appends a delivery
target (the source does not break after the first match). -/
def user_gcn_targets (ctx : GcnCtx) (mk : DeliveryTarget) :
    List GcnProfile → Except String (List DeliveryTarget)
  | [] => .ok []
  | p :: rest =>
    match profile_step ctx p with
    | .error e => .error e
    | .ok true =>
      match user_gcn_targets ctx mk rest with
      | .error e => .error e
      | .ok l => .ok (mk :: l)
    | .ok false => user_gcn_targets ctx mk rest

/-- The `for user in users` loop.  A user with no named profiles is
skipped (`if len(gcn_prefs.keys()) == 0: continue`, the `[]` case of the
profile loop). -/
def gcn_users_loop (ctx : GcnCtx) (text nt url : String) :
    List DBUser → Except String (List DeliveryTarget)
  | [] => .ok []
  | u :: rest =>
    match user_gcn_targets ctx (mk_target u text nt url (some ())) (gcn_profiles u) with
    | .error e => .error e
    | .ok l =>
      match gcn_users_loop ctx text nt url rest with
      | .error e => .error e
      | .ok l2 => .ok (l ++ l2)

def findNotice (st : Store) (i : Nat) : Option GcnNoticeRec :=
  st.gcnNotices.find? (fun n => n.id == i)

def findLocalization (st : Store) (i : Nat) : Option LocalizationRec :=
  st.localizations.find? (fun l => l.id == i)

def findEventByDateobs (st : Store) (d : String) : Option GcnEventRec :=
  st.gcnEvents.find? (fun e => e.dateobs == d)

/-- `process_gcn_notification`.  Result `.ok none` is the bare Python
`return` (a `GcnTag` trigger whose event has no localizations),
`.ok (some l)` the returned list, `.error` an uncaught exception
(including the null-row `AttributeError`s of the fetch section). -/
def process_gcn_notification (st : Store) (d : EventData) :
    Except String (Option (List DeliveryTarget)) :=
  let users := st.users.filter (gcn_candidate d.target_class_name)
  if users.isEmpty then .ok (some []) else
  match ((if d.target_class_name == "GcnTag" then
           match st.gcnTags.find? (fun g => g.id == d.target_id) with
           | none => .error "AttributeError: NoneType has no attribute dateobs"
           | some gt =>
             match findEventByDateobs st gt.dateobs with
             | none => .error "AttributeError: NoneType has no attribute localizations"
             | some ev =>
               match ev.localizations with
               | [] => .ok none
               | lid :: _ => .ok (some (lid, some gt))
         else .ok (some (d.target_id, none))) :
          Except String (Option (Nat × Option GcnTagRec))) with
  | .error e => .error e
  | .ok none => .ok none
  | .ok (some (target_id, gcnTag?)) =>
    match ((if d.target_class_name == "GcnNotice" then
             match findNotice st target_id with
             | none => .error "AttributeError: NoneType has no attribute to_dict"
             | some n => .ok (n.dateobs, (none : Option Nat))
           else
             match findLocalization st target_id with
             | none => .error "AttributeError: NoneType has no attribute to_dict"
             | some l => .ok (l.dateobs, l.notice_id)) :
            Except String (String × Option Nat)) with
    | .error e => .error e
    | .ok (dateobs, notice_id?) =>
      match findEventByDateobs st dateobs with
      | none => .error "AttributeError: NoneType has no attribute gcn_notices"
      | some event =>
        let notices := event.gcn_notices
        let filtered := notices.filter (fun n =>
          (d.target_class_name == "GcnNotice" && n.id == target_id) ||
          (!(d.target_class_name == "GcnNotice") && some n.id == notice_id?))
        match filtered with
        | [] => .ok (some [])
        | notice :: _ =>
          let ctx : GcnCtx :=
            { target_class_name := d.target_class_name,
              notice_type := notice.notice_type,
              event_tags := event.tags,
              event_properties := event.properties,
              localization :=
                if d.target_class_name == "GcnNotice" then none
                else findLocalization st target_id }
          let text :=
            match gcnTag? with
            | some gt => "Updated GCN Event *" ++ dateobs ++ "*, with Tag *" ++ gt.text ++ "*"
            | none =>
              if notices.length > 1 then
                "New Notice for GCN Event *" ++ dateobs ++ "*, with Notice Type *" ++
                  notice.notice_type ++ "*"
              else
                "New GCN Event *" ++ dateobs ++ "*, with Notice Type *" ++
                  notice.notice_type ++ "*"
          let nt := if d.target_class_name == "GcnTag" then "gcn_events_new_tag"
                    else "gcn_events"
          let url := "/gcn_events/" ++ replaceChar ' ' 'T' dateobs
          match gcn_users_loop ctx text nt url users with
          | .error e => .error e
          | .ok l => .ok (some l)

/-! ## `process_followup_request_notification` (lines 704-788) -/

/-- Python `f"{obj_id}"`: `None` renders as the string `None`. -/
def pyFmtObj : Option String → String
  | none => "None"
  | some s => s

/-- The deletion message template of the deleted branch. -/
def followup_deleted_text (oid : Option String) (aid : Int) : String :=
  "A follow-up request for " ++ pyFmtObj oid ++ " with allocation " ++ toString aid ++
    " was deleted"

/-- The message template of the new-request branch. -/
def followup_new_text (oid : Option String) (aid : Int) : String :=
  "New follow-up request for " ++ pyFmtObj oid ++ " with allocation " ++ toString aid

/-- `Allocation.select(user, mode="read").where(Allocation.id == aid)`
returns a row iff the allocation exists and the user may read it. -/
def allocation_readable (st : Store) (u : DBUser) (aid : Int) : Bool :=
  st.allocations.contains aid && st.canRead u.id aid

/-- The `for user in users` loop shared by both branches: each user whose
allocation lookup succeeds gets one notification; `allocSought = none`
models an SQL `Allocation.id == NULL` comparison, which matches no row. -/
def followup_loop (st : Store) (allocSought : Option Int)
    (mkT : DBUser → Int → DeliveryTarget) : List DBUser → List DeliveryTarget
  | [] => []
  | u :: rest =>
    match allocSought with
    | none => followup_loop st allocSought mkT rest
    | some aid =>
      if allocation_readable st u aid then
        mkT u aid :: followup_loop st allocSought mkT rest
      else followup_loop st allocSought mkT rest

/-- `process_followup_request_notification`.  The branch condition is the
source's `not fr and alloc_id and obj_id or fr.status == "deleted"`
(`and` binds tighter than `or`): when the first disjunct is falsy the
second is evaluated, which dereferences `fr.status` — an uncaught
`AttributeError` when no request row was found. -/
def process_followup_request_notification (st : Store) (d : EventData) :
    Except String (List DeliveryTarget) :=
  let users := st.users.filter followupActive
  if users.isEmpty then .ok [] else
  let fr? := st.followupRequests.find? (fun r => r.id == d.target_id)
  match ((if fr?.isNone && pyTruthyOptInt d.allocation_id && pyTruthyStr d.obj_id then
            .ok true
          else
            match fr? with
            | none => .error "AttributeError: NoneType object has no attribute status"
            | some fr => .ok (fr.status == "deleted")) : Except String Bool) with
  | .error e => .error e
  | .ok true =>
    let allocSought : Option Int :=
      match fr? with
      | none => d.allocation_id
      | some fr => some fr.allocation_id
    .ok (followup_loop st allocSought
          (fun u aid => mk_target u (followup_deleted_text d.obj_id aid)
            "followup_requests" "/followup_requests" none) users)
  | .ok false =>
    .ok (followup_loop st d.allocation_id
          (fun u aid => mk_target u (followup_new_text d.obj_id aid)
            "followup_requests" ("/followup_requests/" ++ toString d.target_id) none) users)

/-! ## The remaining resolvers (lines 791-1073) -/

/-- `process_observation_plan_notification`: a missing plan row is checked
(`if observation_plan:`) and yields no notifications. -/
def process_observation_plan_notification (st : Store) (d : EventData) :
    Except String (List DeliveryTarget) :=
  let users := st.users.filter obsplanActive
  if users.isEmpty then .ok [] else
  match st.observationPlans.find? (fun p => p.id == d.target_id) with
  | none => .ok []
  | some plan =>
    .ok (users.map (fun u =>
      mk_target u ("New observation plan for GCN event " ++ plan.dateobs)
        "observation_plans" ("/gcn_events/" ++ replaceChar ' ' 'T' plan.dateobs) none))

/-- `Listing` membership in the user's `favorites` list. -/
def hasFavoriteListing (st : Store) (uid : Nat) (oid : String) : Bool :=
  st.listings.any (fun l => l.user_id == uid && l.obj_id == oid && l.list_name == "favorites")

/-- `process_comment_notification`: the comment row is fetched first and
dereferenced unconditionally (`comment.bot`). -/
def process_comment_notification (st : Store) (d : EventData) :
    Except String (List DeliveryTarget) :=
  match st.comments.find? (fun c => c.id == d.target_id) with
  | none => .error "AttributeError: NoneType object has no attribute bot"
  | some c =>
    let users := st.users.filter (fun u =>
      favActive u && favNewComments u && (!c.bot || favNewBotComments u) &&
        hasFavoriteListing st u.id c.obj_id)
    if users.isEmpty then .ok [] else
    .ok (users.map (fun u =>
      mk_target u ("New comment on favorite source " ++ c.obj_id)
        "favorite_sources" ("/source/" ++ c.obj_id) none))

/-- `process_classification_notification`. -/
def process_classification_notification (st : Store) (d : EventData) :
    Except String (List DeliveryTarget) :=
  match st.classifications.find? (fun c => c.id == d.target_id) with
  | none => .error "AttributeError: NoneType object has no attribute obj_id"
  | some c =>
    let users := st.users.filter (fun u =>
      favActive u && favNewClassifications u && hasFavoriteListing st u.id c.obj_id)
    if users.isEmpty then .ok [] else
    .ok (users.map (fun u =>
      mk_target u ("New classification on favorite source " ++ c.obj_id)
        "favorite_sources" ("/source/" ++ c.obj_id) none))

/-- `process_spectra_notification`: set (a) favorite-source subscribers,
then set (b) generic source subscribers excluding set (a) (the second
select has no `Listing` constraint, as in the source). -/
def process_spectra_notification (st : Store) (d : EventData) :
    Except String (List DeliveryTarget) :=
  match st.spectra.find? (fun s => s.id == d.target_id) with
  | none => .error "AttributeError: NoneType object has no attribute obj_id"
  | some sp =>
    let usersA := st.users.filter (fun u =>
      favActive u && favNewSpectra u && hasFavoriteListing st u.id sp.obj_id)
    let targetsA := usersA.map (fun u =>
      mk_target u ("New spectrum on favorite source " ++ sp.obj_id)
        "favorite_sources" ("/source/" ++ sp.obj_id) none)
    let usersB := st.users.filter (fun u =>
      sourcesActive u && sourcesNewSpectra u && !((usersA.map (·.id)).contains u.id))
    let targetsB := usersB.map (fun u =>
      mk_target u ("New spectrum on source " ++ sp.obj_id)
        "sources" ("/source/" ++ sp.obj_id) none)
    .ok (targetsA ++ targetsB)

/-- `process_group_admission_request_notification`: notifies the admins of
the requested group; note the `notification_type` it writes is the plural
string `group_admission_requests`. -/
def process_group_admission_request_notification (st : Store) (d : EventData) :
    Except String (List DeliveryTarget) :=
  match st.groupAdmissionRequests.find? (fun r => r.id == d.target_id) with
  | none => .error "AttributeError: NoneType object has no attribute group_id"
  | some req =>
    let users := st.users.filter (fun u =>
      st.groupUsers.any (fun g => g.user_id == u.id && g.group_id == req.group_id && g.admin))
    .ok (users.map (fun u =>
      mk_target u ("User " ++ req.requester_username ++ " requested to join group " ++
          req.group_name)
        "group_admission_requests" ("/group/" ++ toString req.group_id) none))

/-! ## `process_notifications` and the worker loops (lines 1076-1165) -/

/-- The `target_class_name` dispatch chain of `process_notifications`.
A class name with no branch (notably `Spectrum` and `ObjAnalysis`) falls
off the end of the Python function, returning `None` (`.ok none`). -/
def process_notifications (st : Store) (d : EventData) :
    Except String (Option (List DeliveryTarget)) :=
  if d.target_class_name == "GcnNotice" || d.target_class_name == "Localization" ||
      d.target_class_name == "GcnTag" then
    process_gcn_notification st d
  else if d.target_class_name == "FollowupRequest" then
    (process_followup_request_notification st d).map some
  else if d.target_class_name == "EventObservationPlan" then
    (process_observation_plan_notification st d).map some
  else if d.target_class_name == "Comment" then
    (process_comment_notification st d).map some
  else if d.target_class_name == "Classification" then
    (process_classification_notification st d).map some
  else if d.target_class_name == "GroupAdmissionRequest" then
    (process_group_admission_request_notification st d).map some
  else
    .ok none

/-- One entry of the candidate queue: any JSON value the API accepted.
Only `dict` payloads carry trigger data. -/
inductive CandidateItem where
  | dict (d : EventData)
  | arr
  | strv (s : String)
  | numv (n : Int)
  | boolv (b : Bool)
  | nullv

/-- `isinstance(x, dict)` on a candidate-queue entry. -/
def CandidateItem.isDictB : CandidateItem → Bool
  | .dict _ => true
  | _ => false

/-- One entry of the delivery queue. -/
inductive DeliveryItem where
  | dict (t : DeliveryTarget)
  | arr
  | strv (s : String)
  | numv (n : Int)
  | boolv (b : Bool)
  | nullv

/-- `isinstance(x, dict)` on a delivery-queue entry. -/
def DeliveryItem.isDictB : DeliveryItem → Bool
  | .dict _ => true
  | _ => false

/-- The response of the ingestion endpoint's `POST`. -/
inductive ApiResponse where
  | badRequest
  | success

/-- The `POST` handler: a JSON-decode failure (`body = none`) yields a 400
and enqueues nothing; any decoded value is appended and answered with
success. -/
def api_post (body : Option CandidateItem) (queue : List CandidateItem) :
    ApiResponse × List CandidateItem :=
  match body with
  | none => (.badRequest, queue)
  | some v => (.success, queue ++ [v])

/-- One run of the `generate_notifications` worker over a finite queue
prefix: non-dict entries are discarded silently; a resolver result that
is not a non-empty list contributes nothing; an uncaught resolver
exception terminates the run (there is no `try` in the loop), leaving the
remaining entries unprocessed.  Returns the delivery targets appended and
the terminating error, if any. -/
def generate_notifications_run (st : Store) :
    List CandidateItem → List DeliveryTarget × Option String
  | [] => ([], none)
  | .dict d :: rest =>
    (match process_notifications st d with
     | .error e => ([], some e)
     | .ok none => generate_notifications_run st rest
     | .ok (some l) =>
       match generate_notifications_run st rest with
       | (ts, err) => (l ++ ts, err))
  | .arr :: rest => generate_notifications_run st rest
  | .strv _ :: rest => generate_notifications_run st rest
  | .numv _ :: rest => generate_notifications_run st rest
  | .boolv _ :: rest => generate_notifications_run st rest
  | .nullv :: rest => generate_notifications_run st rest

/-! ## Delivery dispatcher (lines 64-498, 1099-1117)

Deployment configuration and the outcome of each external call are an
`Env`: `emailEnabled` is the module-level `email` flag, `twilioEnabled`
says the Twilio `client` is not `None`, `hour` is
`arrow.utcnow().datetime.hour`, `onShiftNow u` says the current-shift
query for user `u` returns a row, and each `...Ok` oracle says whether
the corresponding external call succeeds (`false` means it raises; the
source catches such errors exactly where its `try` blocks sit). -/

structure Env where
  emailEnabled : Bool := false
  twilioEnabled : Bool := false
  slackPreamble : String := "https://hooks.slack.com"
  appTitle : String := "SkyPortal"
  hour : Int := 0
  onShiftNow : Nat → Bool := fun _ => false
  flowPushOk : Bool := true
  callOk : Bool := true
  smsOk : Bool := true
  whatsappOk : Bool := true
  emailRenderOk : Bool := true
  emailSendOk : Bool := true
  slackOk : Bool := true

/-- `notification_resource_type`: substring dispatch on the target's
`notification_type` (note that `favorite_sources` itself contains the
substring `sources`; the `elif` order resolves that). -/
def notification_resource_type (t : DeliveryTarget) : Option String :=
  match t.notification_type with
  | none => none
  | some nt =>
    if nt.toList.isEmpty then none
    else if !(pyIn "favorite_sources" nt) && !(pyIn "gcn_events" nt) &&
        !(pyIn "sources" nt) then some nt
    else if pyIn "favorite_sources" nt then some "favorite_sources"
    else if pyIn "gcn_events" nt then some "gcn_events"
    else if pyIn "sources" nt then some "sources"
    else none

/-- Result of `user_preferences`: Python `None`, the literal `True`
returned by the group-admission email bypass, or the user's
`notifications` preference dict. -/
inductive PrefResult where
  | nothing
  | bypass
  | somePrefs (m : List (String × ResourceEntry))

/-- The resource types given per-channel `active` gating. -/
def seven_resource_types : List String :=
  ["sources", "favorite_sources", "gcn_events", "followup_requests", "mention",
   "analysis_services", "observation_plans"]

/-- `user_preferences(target, notification_setting, resource_type)`
(defined twice verbatim in the source; the second definition shadows the
first, and the two copies are identical).  Checks in source order: the
argument type guards, the falsy-user guard, the email gates (including
the `group_admission_request` bypass, tested before the `preferences`
key check), the `preferences` key, the Twilio gates for sms/phone, the
Slack integration gates, the truthiness of the `notifications` dict, and
the per-resource per-channel `active` flag for the seven listed resource
types. -/
def user_preferences (env : Env) (t : DeliveryTarget) (setting : String)
    (rt? : Option String) : PrefResult :=
  match rt? with
  | none => .nothing
  | some rt =>
    match t.user with
    | none => .nothing
    | some u =>
      if setting == "email" && !env.emailEnabled then .nothing
      else if setting == "email" && !(pyTruthyStr u.contact_email) then .nothing
      else if setting == "email" && rt == "group_admission_request" then .bypass
      else
        match u.preferences with
        | none => .nothing
        | some prefs =>
          if (setting == "sms" || setting == "phone") && !env.twilioEnabled then .nothing
          else if (setting == "sms" || setting == "phone") &&
              !(pyTruthyStr u.contact_phone) then .nothing
          else if setting == "slack" then
            match prefs.slack_integration with
            | none => .nothing
            | some si =>
              if !si.active then .nothing
              else if !(pyStartsWith (si.url.getD "") env.slackPreamble) then .nothing
              else user_preferences_tail setting rt prefs
          else user_preferences_tail setting rt prefs

where
  /-- The shared tail after the channel-specific gates: the truthiness of
  `preferences.get("notifications")` and the seven-type narrowing. -/
  user_preferences_tail (setting rt : String) (prefs : UserPrefs) : PrefResult :=
    match prefs.notifications with
    | none => .nothing
    | some m =>
      if m.isEmpty then .nothing
      else if seven_resource_types.contains rt then
        match m.lookup rt with
        | none => .nothing
        | some re =>
          match re.channels.lookup setting with
          | none => .nothing
          | some ch => if !ch.active then .nothing else .somePrefs m
      else .somePrefs m

/-- Result of invoking one channel function: the channel decided not to
send, it sent, or the external call raised and the channel's own `try`
caught it.  An `Except.error` at the call site models an exception that
escapes the channel function. -/
inductive SendOutcome where
  | skipped
  | sent
  | failedCaught

/-- The on-shift / time-slot block shared verbatim by
`send_sms_notification`, `send_phone_notification` and
`send_whatsapp_notification` (lines 355-376, 398-418, 441-461):
`sending` starts from the on-shift condition; a non-empty `time_slot`
list is read at indices 0 and 1 (a one-element list raises `IndexError`);
`t0 < t1` is the plain inclusive window, otherwise the window wraps past
midnight. -/
def shift_timeslot_gate (onShiftPref hasShift : Bool) (timeslot : List Int)
    (hour : Int) : Except String Bool :=
  let sending := onShiftPref && hasShift
  match timeslot with
  | [] => .ok sending
  | [_] => .error "IndexError: list index out of range"
  | t0 :: t1 :: _ =>
    if t0 < t1 then .ok (sending || (decide (t0 ≤ hour) && decide (hour ≤ t1)))
    else .ok (sending || (decide (hour ≤ t1) || decide (t0 ≤ hour)))

/-- `push_frontend_notification`: resolves a user id from `user_id` or
`user.id`, logs and returns when none is found, else pushes over the
websocket flow (no `try` around the push). -/
def push_frontend_notification (env : Env) (t : DeliveryTarget) :
    Except String SendOutcome :=
  match ((match t.user_id with
         | some uid => some uid
         | none => t.user.map (·.id)) : Option Nat) with
  | none => .ok .skipped
  | some _ => if env.flowPushOk then .ok .sent else .error "flow push raised"

/-- `send_sms_notification`.  After the `user_preferences` truthiness
check the source indexes `prefs[resource_type]["sms"]` directly — a
`KeyError` escapes the function when either key is absent (reachable for
resource types outside the seven gated ones, where `user_preferences`
returns the dict unchecked). -/
def send_sms_notification (env : Env) (t : DeliveryTarget) : Except String SendOutcome :=
  let rt := notification_resource_type t
  match user_preferences env t "sms" rt, rt, t.user with
  | .nothing, _, _ => .ok .skipped
  | .bypass, _, _ => .error "TypeError: bool object is not subscriptable"
  | .somePrefs m, some r, some u =>
    match m.lookup r with
    | none => .error "KeyError"
    | some re =>
      match re.channels.lookup "sms" with
      | none => .error "KeyError"
      | some ch =>
        match shift_timeslot_gate ch.on_shift (env.onShiftNow u.id) ch.time_slot env.hour with
        | .error e => .error e
        | .ok false => .ok .skipped
        | .ok true => .ok (if env.smsOk then .sent else .failedCaught)
  | .somePrefs _, _, _ => .error "unreachable: prefs imply user and resource type"

/-- `send_phone_notification`, same structure as SMS with the `phone`
channel key and the voice-call client. -/
def send_phone_notification (env : Env) (t : DeliveryTarget) : Except String SendOutcome :=
  let rt := notification_resource_type t
  match user_preferences env t "phone" rt, rt, t.user with
  | .nothing, _, _ => .ok .skipped
  | .bypass, _, _ => .error "TypeError: bool object is not subscriptable"
  | .somePrefs m, some r, some u =>
    match m.lookup r with
    | none => .error "KeyError"
    | some re =>
      match re.channels.lookup "phone" with
      | none => .error "KeyError"
      | some ch =>
        match shift_timeslot_gate ch.on_shift (env.onShiftNow u.id) ch.time_slot env.hour with
        | .error e => .error e
        | .ok false => .ok .skipped
        | .ok true => .ok (if env.callOk then .sent else .failedCaught)
  | .somePrefs _, _, _ => .error "unreachable: prefs imply user and resource type"

/-- `send_whatsapp_notification`, same structure with the `whatsapp`
channel key. -/
def send_whatsapp_notification (env : Env) (t : DeliveryTarget) :
    Except String SendOutcome :=
  let rt := notification_resource_type t
  match user_preferences env t "whatsapp" rt, rt, t.user with
  | .nothing, _, _ => .ok .skipped
  | .bypass, _, _ => .error "TypeError: bool object is not subscriptable"
  | .somePrefs m, some r, some u =>
    match m.lookup r with
    | none => .error "KeyError"
    | some re =>
      match re.channels.lookup "whatsapp" with
      | none => .error "KeyError"
      | some ch =>
        match shift_timeslot_gate ch.on_shift (env.onShiftNow u.id) ch.time_slot env.hour with
        | .error e => .error e
        | .ok false => .ok .skipped
        | .ok true => .ok (if env.whatsappOk then .sent else .failedCaught)
  | .somePrefs _, _, _ => .error "unreachable: prefs imply user and resource type"

/-- The subject chain of `send_email_notification` for the resource types
whose subject is a plain configured string (the `sources` and
`gcn_events` branches render externally and are handled at the call
site).  Only the four `favorite_sources_new_*` notification types get a
favorite-sources subject, and the group-admission branch tests the
singular string `group_admission_request`. -/
def email_subject (env : Env) (t : DeliveryTarget) (rt : Option String) : Option String :=
  match rt with
  | some "followup_requests" => some (env.appTitle ++ " - New follow-up request")
  | some "observation_plans" => some (env.appTitle ++ " - New observation plan")
  | some "analysis_services" => some (env.appTitle ++ " - New completed analysis service")
  | some "favorite_sources" =>
    if t.notification_type == some "favorite_sources_new_classification" then
      some (env.appTitle ++ " - New classification on a favorite source")
    else if t.notification_type == some "favorite_sources_new_spectrum" then
      some (env.appTitle ++ " - New spectrum on a favorite source")
    else if t.notification_type == some "favorite_sources_new_comment" then
      some (env.appTitle ++ " - New comment on a favorite source")
    else if t.notification_type == some "favorite_sources_new_activity" then
      some (env.appTitle ++ " - New activity on a favorite source")
    else none
  | some "mention" => some (env.appTitle ++ " - User mentioned you in a comment")
  | some "group_admission_request" => some (env.appTitle ++ " - New group admission request")
  | _ => none

/-- `send_email_notification`: the whole body sits in a `try`, so nothing
escapes; a raising subject render (sources / gcn events) or a raising
send are caught and logged; the mail is sent only when a subject was
assigned and the user has a contact email. -/
def send_email_notification (env : Env) (t : DeliveryTarget) : Except String SendOutcome :=
  let rt := notification_resource_type t
  match user_preferences env t "email" rt with
  | .nothing => .ok .skipped
  | _ =>
    if (rt == some "sources" || rt == some "gcn_events") && !env.emailRenderOk then
      .ok .failedCaught
    else
      let subject : Option String :=
        if rt == some "sources" || rt == some "gcn_events" then some "rendered"
        else email_subject env t rt
      if subject.isSome && pyTruthyStr (t.user.bind (·.contact_email)) then
        .ok (if env.emailSendOk then .sent else .failedCaught)
      else .ok .skipped

/-- `send_slack_notification`: after the preference gates, the payload
build and the relay post sit in a `try`; the integration URL read just
before it cannot fail because the slack gates verified the key. -/
def send_slack_notification (env : Env) (t : DeliveryTarget) : Except String SendOutcome :=
  let rt := notification_resource_type t
  match user_preferences env t "slack" rt with
  | .nothing => .ok .skipped
  | _ =>
    match (t.user.bind (·.preferences)).bind (·.slack_integration) with
    | none => .error "KeyError"
    | some _ => .ok (if env.slackOk then .sent else .failedCaught)

/-- The dispatch order of `send_notifications` (lines 1110-1115). -/
def channel_order : List String :=
  ["push", "phone", "sms", "whatsapp", "email", "slack"]

/-- Invoke one channel function by its name in the dispatch order. -/
def run_channel (env : Env) (t : DeliveryTarget) : String → Except String SendOutcome
  | "push" => push_frontend_notification env t
  | "phone" => send_phone_notification env t
  | "sms" => send_sms_notification env t
  | "whatsapp" => send_whatsapp_notification env t
  | "email" => send_email_notification env t
  | "slack" => send_slack_notification env t
  | _ => .ok .skipped

/-- Run the channels in order under the single `try` of the dispatcher
loop: an exception escaping one channel is caught there, and the
remaining channels are not invoked.  Returns the invoked channel names,
the completed outcomes, and the caught exception, if any. -/
def dispatch_go (env : Env) (t : DeliveryTarget) :
    List String → List String × List (String × SendOutcome) × Option String
  | [] => ([], [], none)
  | c :: rest =>
    match run_channel env t c with
    | .error e => ([c], [], some e)
    | .ok o =>
      match dispatch_go env t rest with
      | (as, os, err) => (c :: as, (c, o) :: os, err)

/-- The record of dispatching one delivery target. -/
structure DispatchRecord where
  attempted : List String
  outcomes : List (String × SendOutcome)
  caught : Option String

/-- Dispatch one delivery target across all channels. -/
def dispatchTarget (env : Env) (t : DeliveryTarget) : DispatchRecord :=
  match dispatch_go env t channel_order with
  | (as, os, err) => ⟨as, os, err⟩

/-- One iteration of the `send_notifications` worker: a non-dict queue
entry is discarded silently (no channel is attempted, no error); a dict
is dispatched. -/
def send_notifications_step (env : Env) (item : DeliveryItem) : Option DispatchRecord :=
  match item with
  | .dict t => some (dispatchTarget env t)
  | _ => none

/-! ## Concrete fixtures used by the counterexamples and witnesses -/

/-- A user with `gcn_events` notifications active and two named profiles,
both with no filters (so both match any event). -/
def u1 : DBUser :=
  { id := 7,
    preferences :=
      { notifications := some
          [("gcn_events", { active := true, profiles := [{}, {}] })] } }

def n1 : GcnNoticeRec :=
  { id := 1, dateobs := "2024-01-01 00:00:00", notice_type := "FERMI_GBM_FIN_POS" }

def ev1 : GcnEventRec :=
  { dateobs := "2024-01-01 00:00:00", gcn_notices := [n1] }

def st1 : Store := { users := [u1], gcnNotices := [n1], gcnEvents := [ev1] }

def d1 : EventData := { target_class_name := "GcnNotice", target_id := 1 }

/-- A small profile-evaluation context (bare-notice trigger). -/
def ctx1 : GcnCtx :=
  { target_class_name := "GcnNotice", notice_type := "FERMI_GBM_FIN_POS",
    event_tags := [], event_properties := [], localization := none }

def mk1 : DeliveryTarget := {}

/-- A user whose single alert-event profile carries a malformed property
filter (two parts instead of three). -/
def uB : DBUser :=
  { id := 2,
    preferences :=
      { notifications := some
          [("gcn_events", { active := true, profiles := [{ gcn_properties := ["mstar:100"] }] })] } }

/-- A user with follow-up-request notifications active. -/
def uF : DBUser :=
  { id := 3,
    preferences :=
      { notifications := some
          [("followup_requests", { active := true })] } }

def nB : GcnNoticeRec :=
  { id := 3, dateobs := "2024-02-02 00:00:00", notice_type := "LVC_PRELIMINARY" }

def evB : GcnEventRec :=
  { dateobs := "2024-02-02 00:00:00", properties := [[("mstar", (150 : Rat))]],
    gcn_notices := [nB] }

def frG : FollowupRec := { id := 5, status := "submitted", allocation_id := 3 }

def st6 : Store :=
  { users := [uB, uF], gcnNotices := [nB], gcnEvents := [evB],
    followupRequests := [frG], allocations := [3], canRead := fun _ _ => true }

def dBad : EventData := { target_class_name := "GcnNotice", target_id := 3 }

def dGood : EventData :=
  { target_class_name := "FollowupRequest", target_id := 5, allocation_id := some 3,
    obj_id := some "objA" }

/-- The same event with zero property-sets. -/
def evB0 : GcnEventRec := { dateobs := "2024-02-02 00:00:00", gcn_notices := [nB] }

def st6b : Store := { users := [uB], gcnNotices := [nB], gcnEvents := [evB0] }

/-- A user with follow-up notifications active, for the missing-request
trigger. -/
def u7 : DBUser :=
  { id := 4,
    preferences :=
      { notifications := some
          [("followup_requests", { active := true })] } }

def st7 : Store := { users := [u7] }

/-- A follow-up trigger whose request does not exist and whose
`allocation_id` was not supplied. -/
def d7 : EventData :=
  { target_class_name := "FollowupRequest", target_id := 9, allocation_id := none,
    obj_id := some "obj9" }

/-- Deleted follow-up request for the C9 witness. -/
def fr9 : FollowupRec := { id := 4, status := "deleted", allocation_id := 2 }

def u9 : DBUser :=
  { id := 1,
    preferences :=
      { notifications := some
          [("followup_requests", { active := true })] } }

def st9 : Store :=
  { users := [u9], followupRequests := [fr9], allocations := [2],
    canRead := fun _ _ => true }

/-- The trigger supplies a different allocation id (9) than the request
row's own (2). -/
def d9 : EventData :=
  { target_class_name := "FollowupRequest", target_id := 4, allocation_id := some 9,
    obj_id := some "objZ" }

/-- A group-admission delivery target: preference dict present but with no
`group_admission_requests` entry, and `phone`/`sms` channel entries but
no `whatsapp` entry. -/
def t2 : DeliveryTarget :=
  { user_id := some 7, text := "join request",
    notification_type := some "group_admission_requests", url := "/group/1",
    user := some
      { id := 7, contact_email := some "a@b.c", contact_phone := some "+15551234567",
        preferences := some
          { slack_integration := some
              { active := true, url := some "https://hooks.slack.com/services/x" },
            notifications := some
              [("group_admission_requests", { channels := [("phone", {}), ("sms", {})] })] } } }

def env2 : Env := { emailEnabled := true, twilioEnabled := true }

/-- A follow-up-request delivery target whose user has every channel
configured. -/
def tW : DeliveryTarget :=
  { user_id := some 8, text := "new follow-up request",
    notification_type := some "followup_requests", url := "/followup_requests/1",
    user := some
      { id := 8, contact_email := some "w@x.y", contact_phone := some "+15550000000",
        preferences := some
          { slack_integration := some
              { active := true, url := some "https://hooks.slack.com/services/w" },
            notifications := some
              [("followup_requests",
                { active := true,
                  channels :=
                    [("phone", { active := true }), ("sms", { active := true }),
                     ("whatsapp", { active := true, time_slot := [0, 23] }),
                     ("email", { active := true }), ("slack", { active := true })] })] } } }

/-- Chat-webhook relay raising (caught inside the slack channel). -/
def envW : Env := { emailEnabled := true, twilioEnabled := true, slackOk := false }

/-- Group-admission delivery target for the email claim: email service
configured, recipient has a contact email and a non-empty preference
dict. -/
def t3 : DeliveryTarget :=
  { user_id := some 5, text := "join request",
    notification_type := some "group_admission_requests", url := "/group/2",
    user := some
      { id := 5, contact_email := some "admin@example.com",
        preferences := some
          { notifications := some [("sources", { active := true })] } } }

def env3 : Env := { emailEnabled := true }

/-! ## Helper lemmas -/

/-- On well-formed filters the imperative filter loop computes the
conjunction of the individual filter checks. -/
theorem props_pass_of_wf (pd : List (String × Rat)) (fs : List String)
    (h : ∀ f ∈ fs, filter_wf f = true) :
    props_pass pd fs = .ok (fs.all (filter_sat pd)) := by
  induction fs with
  | nil => rfl
  | cons f fs ih =>
    have hf := h f (List.mem_cons_self f fs)
    have hrest := ih (fun g hg => h g (List.mem_cons_of_mem f hg))
    unfold filter_wf at hf
    rw [List.all_cons]
    cases hsp : pySplit f ':' with
    | nil => rw [hsp] at hf; simp at hf
    | cons p0 tl =>
      cases tl with
      | nil => rw [hsp] at hf; simp at hf
      | cons p1 tl2 =>
        cases tl2 with
        | nil => rw [hsp] at hf; simp at hf
        | cons p2 tl3 =>
          cases tl3 with
          | cons p3 tl4 => rw [hsp] at hf; simp at hf
          | nil =>
            rw [hsp] at hf
            rw [Bool.and_eq_true] at hf
            obtain ⟨h1, h2⟩ := hf
            have h2m : pyStrip p2 ∈ op_options := by simpa using h2
            have hsat : filter_sat pd f =
                (match pd.lookup (pyStrip p0), parseFloat? (pyStrip p1) with
                 | none, _ => true
                 | some stored, some v => applyOp (pyStrip p2) stored v
                 | some _, none => false) := by
              simp only [filter_sat, hsp]
            simp only [props_pass, hsp]
            rw [hsat]
            cases hlk : pd.lookup (pyStrip p0) with
            | none => simp [hrest]
            | some stored =>
              obtain ⟨v, hv⟩ := Option.isSome_iff_exists.mp h1
              rw [hv]
              cases hab : applyOp (pyStrip p2) stored v with
              | true => simp [h2m, hab, hrest]
              | false => simp [h2m, hab]

/-- `any id` after a `map` is the `any` of the mapped predicate. -/
theorem any_map_id (l : List α) (f : α → Bool) : (l.map f).any id = l.any f := by
  induction l with
  | nil => rfl
  | cons a l ih => simp [List.any_cons, ih]

/-- The `properties_bool` accumulation on well-formed filters. -/
theorem mapME_props (fs : List String) (h : ∀ f ∈ fs, filter_wf f = true)
    (sets : List (List (String × Rat))) :
    mapME (fun pd => props_pass pd fs) sets =
      .ok (sets.map (fun pd => fs.all (filter_sat pd))) := by
  induction sets with
  | nil => rfl
  | cons pd sets ih =>
    simp only [mapME, props_pass_of_wf pd fs h, ih, List.map_cons]

/-- Membership description of the per-user allocation loop of the
follow-up resolver. -/
theorem followup_loop_spec (st : Store) (aid : Int)
    (mkT : DBUser → Int → DeliveryTarget) (us : List DBUser) :
    (∀ t ∈ followup_loop st (some aid) mkT us, ∃ u, u ∈ us ∧ t = mkT u aid) ∧
    (∀ u ∈ us, allocation_readable st u aid = true →
      mkT u aid ∈ followup_loop st (some aid) mkT us) := by
  induction us with
  | nil => exact ⟨by simp [followup_loop], by simp⟩
  | cons u us ih =>
    simp only [followup_loop]
    by_cases hr : allocation_readable st u aid = true
    · rw [if_pos hr]
      constructor
      · intro t ht
        rcases List.mem_cons.mp ht with rfl | ht'
        · exact ⟨u, List.mem_cons_self u us, rfl⟩
        · obtain ⟨w, hw, rfl⟩ := ih.1 t ht'
          exact ⟨w, List.mem_cons_of_mem u hw, rfl⟩
      · intro w hw hwr
        rcases List.mem_cons.mp hw with rfl | hw'
        · exact List.mem_cons_self _ _
        · exact List.mem_cons_of_mem _ (ih.2 w hw' hwr)
    · rw [if_neg hr]
      constructor
      · intro t ht
        obtain ⟨w, hw, rfl⟩ := ih.1 t ht
        exact ⟨w, List.mem_cons_of_mem u hw, rfl⟩
      · intro w hw hwr
        rcases List.mem_cons.mp hw with rfl | hw'
        · exact absurd hwr hr
        · exact ih.2 w hw' hwr

/-- The tail of `user_preferences` (notifications truthiness and the
seven-type narrowing) never returns the bypass value. -/
theorem tail_ne_bypass (s rt : String) (prefs : UserPrefs) :
    user_preferences.user_preferences_tail s rt prefs ≠ .bypass := by
  intro hby
  unfold user_preferences.user_preferences_tail at hby
  repeat' split at hby
  all_goals cases hby

/-- `user_preferences` can return the bypass value only for the resource
type `group_admission_request`. -/
theorem user_preferences_ne_bypass (env : Env) (t : DeliveryTarget) (s rt : String)
    (hne : rt ≠ "group_admission_request") :
    user_preferences env t s (some rt) ≠ .bypass := by
  intro hby
  unfold user_preferences at hby
  cases hu : t.user with
  | none => simp only [hu] at hby; cases hby
  | some u =>
    simp only [hu] at hby
    repeat' split at hby
    all_goals
      first
      | (rename_i hcond
         rw [Bool.and_eq_true] at hcond
         exact absurd (eq_of_beq hcond.2) hne)
      | exact tail_ne_bypass _ _ _ hby
      | cases hby

/-- When every channel function returns without an escaping exception the
dispatcher invokes each channel of the list exactly once, in order. -/
theorem dispatch_go_all_ok (env : Env) (t : DeliveryTarget) (cs : List String)
    (h : ∀ c ∈ cs, ∃ o, run_channel env t c = .ok o) :
    (dispatch_go env t cs).1 = cs ∧ (dispatch_go env t cs).2.2 = none ∧
    (dispatch_go env t cs).2.1.map Prod.fst = cs := by
  induction cs with
  | nil => exact ⟨rfl, rfl, rfl⟩
  | cons c cs ih =>
    obtain ⟨o, ho⟩ := h c (List.mem_cons_self c cs)
    have ih' := ih (fun g hg => h g (List.mem_cons_of_mem c hg))
    simp only [dispatch_go, ho]
    rcases hg : dispatch_go env t cs with ⟨as, os, err⟩
    rw [hg] at ih'
    obtain ⟨h1, h2, h3⟩ := ih'
    simp only [List.map_cons]
    exact ⟨by rw [show as = cs from h1], show err = none from h2,
           by rw [show List.map Prod.fst os = cs from h3]⟩

/-! ## Claim theorems -/

/-- Claim C8 (confirmed): on well-formed numeric property filters the
profile property check passes iff at least one event property-set
satisfies all filters (OR over sets, AND over filters), a filter being
satisfied when `stored_value <operator> filter_value` holds (a filter on
an absent property name is vacuously satisfied, as in the source); and
concretely `mstar:100:gt` matches a set with `mstar = 150` and not one
with `mstar = 50`. -/
theorem C8_property_filter_semantics :
    (∀ (sets : List (List (String × Rat))) (fs : List String),
       (∀ f ∈ fs, filter_wf f = true) →
       gcn_properties_check sets fs = .ok (sets.any (fun pd => fs.all (filter_sat pd)))) ∧
    gcn_properties_check [[("mstar", (150 : Rat))]] ["mstar:100:gt"] = .ok true ∧
    gcn_properties_check [[("mstar", (50 : Rat))]] ["mstar:100:gt"] = .ok false := by
  refine ⟨?_, rfl, rfl⟩
  intro sets fs h
  unfold gcn_properties_check
  rw [mapME_props fs h sets]
  exact congrArg Except.ok (any_map_id sets (fun pd => fs.all (filter_sat pd)))

/-- Witness for C8 at a concrete instance. -/
theorem C8_witness :
    (∀ f ∈ (["mstar:100:gt"] : List String), filter_wf f = true) ∧
    gcn_properties_check [[("mstar", (150 : Rat))], [("mstar", (50 : Rat))]]
        ["mstar:100:gt"] =
      .ok (([[("mstar", (150 : Rat))], [("mstar", (50 : Rat))]] :
          List (List (String × Rat))).any
        (fun pd => (["mstar:100:gt"] : List String).all (filter_sat pd))) :=
  ⟨by decide, C8_property_filter_semantics.1 _ _ (by decide)⟩

/-- Claim C5 (confirmed): the shared on-shift / time-slot gate fires as an
independent OR of the on-shift condition and the window condition; for
`start < end` the window is the inclusive range, for `start > end` it
wraps past midnight, and for `[0, 0]` the window imposes no hour
restriction (the gate passes at every hour); window `[22, 6]` matches
hours 23 and 2 but not 12, and `[9, 17]` matches 12 but not 20. -/
theorem C5_time_slot_gate :
    (∀ (p s : Bool) (t0 t1 h : Int), t0 < t1 →
       shift_timeslot_gate p s [t0, t1] h =
         .ok ((p && s) || (decide (t0 ≤ h) && decide (h ≤ t1)))) ∧
    (∀ (p s : Bool) (t0 t1 h : Int), t1 < t0 →
       shift_timeslot_gate p s [t0, t1] h =
         .ok ((p && s) || (decide (h ≤ t1) || decide (t0 ≤ h)))) ∧
    (∀ (p s : Bool) (h : Int), shift_timeslot_gate p s [0, 0] h = .ok true) ∧
    shift_timeslot_gate false false [22, 6] 23 = .ok true ∧
    shift_timeslot_gate false false [22, 6] 2 = .ok true ∧
    shift_timeslot_gate false false [22, 6] 12 = .ok false ∧
    shift_timeslot_gate false false [9, 17] 12 = .ok true ∧
    shift_timeslot_gate false false [9, 17] 20 = .ok false := by
  refine ⟨?_, ?_, ?_, rfl, rfl, rfl, rfl, rfl⟩
  · intro p s t0 t1 h hlt
    simp only [shift_timeslot_gate, if_pos hlt]
  · intro p s t0 t1 h hlt
    simp only [shift_timeslot_gate, if_neg (not_lt.mpr hlt.le)]
  · intro p s h
    simp only [shift_timeslot_gate]
    rw [if_neg (lt_irrefl (0 : Int))]
    rcases le_total h 0 with h' | h'
    · simp [h']
    · simp [h']

/-- Witness for C5 at a concrete window and hour. -/
theorem C5_witness :
    (9 : Int) < 17 ∧
    shift_timeslot_gate true true [9, 17] 12 =
      .ok ((true && true) || (decide ((9 : Int) ≤ 12) && decide ((12 : Int) ≤ 17))) :=
  ⟨by decide, C5_time_slot_gate.1 true true 9 17 12 (by decide)⟩

/-- Claim C1 (amended): for an alert-event trigger the processor persists
one NotificationRecord and appends one DeliveryTarget per
(event, user, matching profile) — a user whose `k` named profiles match
receives `k` records, not one. -/
theorem C1_per_profile_fanout (ctx : GcnCtx) (mk : DeliveryTarget)
    (ps : List GcnProfile) (bs : List Bool)
    (h : mapME (profile_step ctx) ps = .ok bs) :
    user_gcn_targets ctx mk ps = .ok (List.replicate (bs.count true) mk) := by
  induction ps generalizing bs with
  | nil =>
    simp only [mapME] at h
    injection h with h2
    subst h2
    rfl
  | cons p ps ih =>
    simp only [mapME] at h
    cases hps : profile_step ctx p with
    | error e => rw [hps] at h; simp at h
    | ok b =>
      rw [hps] at h
      cases hrest : mapME (profile_step ctx) ps with
      | error e => rw [hrest] at h; simp at h
      | ok bs' =>
        rw [hrest] at h
        injection h with h2
        subst h2
        simp only [user_gcn_targets, hps]
        cases b with
        | true =>
          rw [ih bs' hrest]
          simp [List.count_cons, List.replicate_succ]
        | false =>
          rw [ih bs' hrest]
          simp [List.count_cons]

/-- Counterexample for C1 as stated: store `st1` holds a single user with
two filterless profiles; one notice trigger yields two persisted records
and two delivery targets for the same (event, user) pair. -/
theorem C1_counterexample :
    st1.users.length = 1 ∧
    (process_gcn_notification st1 d1).map (Option.map (fun l =>
      (l.length, l.all (fun t => t.user_id == some 7)))) = .ok (some (2, true)) :=
  ⟨rfl, rfl⟩

/-- Witness for C1 with two matching profiles. -/
theorem C1_witness :
    mapME (profile_step ctx1) [{}, {}] = .ok [true, true] ∧
    user_gcn_targets ctx1 mk1 [{}, {}] =
      .ok (List.replicate (([true, true] : List Bool).count true) mk1) :=
  ⟨rfl, C1_per_profile_fanout ctx1 mk1 _ _ rfl⟩

/-- Claim C2 (amended): when no channel function raises an exception that
escapes it, the dispatcher invokes all six channels exactly once, in
order, with no caught exception — in particular each channel's own
caught send failure (any of the `...Ok` oracles being false) never
changes which channels are attempted.  (The unamended claim fails: an
exception escaping a channel's preference evaluation aborts the
remaining channels, see the counterexample.) -/
theorem C2_isolation_when_no_escape (env : Env) (t : DeliveryTarget)
    (h : ∀ c ∈ channel_order, ∃ o, run_channel env t c = .ok o) :
    (dispatchTarget env t).attempted = channel_order ∧
    (dispatchTarget env t).caught = none ∧
    (dispatchTarget env t).outcomes.map Prod.fst = channel_order := by
  have hgo := dispatch_go_all_ok env t channel_order h
  unfold dispatchTarget
  rcases hg : dispatch_go env t channel_order with ⟨as, os, err⟩
  rw [hg] at hgo
  obtain ⟨h1, h2, h3⟩ := hgo
  exact ⟨show as = _ from h1, show err = none from h2,
         show List.map Prod.fst os = _ from h3⟩

/-- Counterexample for C2 as stated: a group-admission target whose
preference dict lacks the `whatsapp` channel entry makes
`send_whatsapp_notification` raise a `KeyError` outside its `try`; the
dispatcher catches it but never attempts the email and slack channels,
although the slack channel was eligible and would have sent. -/
theorem C2_counterexample :
    dispatchTarget env2 t2 =
      ⟨["push", "phone", "sms", "whatsapp"],
       [("push", .sent), ("phone", .skipped), ("sms", .skipped)], some "KeyError"⟩ ∧
    send_slack_notification env2 t2 = .ok .sent ∧
    ¬ ("email" ∈ (dispatchTarget env2 t2).attempted) ∧
    ¬ ("slack" ∈ (dispatchTarget env2 t2).attempted) := by
  refine ⟨rfl, rfl, ?_, ?_⟩ <;> decide

/-- Witness for C2: a fully configured follow-up target where the chat
webhook raises (caught inside the slack channel); all six channels are
still attempted and email is sent. -/
theorem C2_witness :
    (dispatchTarget envW tW).attempted = channel_order ∧
    (dispatchTarget envW tW).caught = none ∧
    run_channel envW tW "slack" = .ok .failedCaught ∧
    run_channel envW tW "email" = .ok .sent := by
  have h : ∀ c ∈ channel_order, ∃ o, run_channel envW tW c = .ok o := by
    intro c hc
    simp only [channel_order, List.mem_cons, List.not_mem_nil, or_false] at hc
    rcases hc with rfl | rfl | rfl | rfl | rfl | rfl
    · exact ⟨.sent, rfl⟩
    · exact ⟨.skipped, rfl⟩
    · exact ⟨.skipped, rfl⟩
    · exact ⟨.sent, rfl⟩
    · exact ⟨.sent, rfl⟩
    · exact ⟨.failedCaught, rfl⟩
  exact ⟨(C2_isolation_when_no_escape envW tW h).1,
         (C2_isolation_when_no_escape envW tW h).2.1, rfl, rfl⟩

/-- Claim C3 (code bug): for a group-admission delivery target the email
channel never sends at all.  The resolver writes the plural
`group_admission_requests` as the notification type, while both the
bypass test in `user_preferences` and the subject branch in
`send_email_notification` test the singular `group_admission_request`;
so the bypass never fires and no subject is ever assigned, for every
environment and every recipient preference configuration. -/
theorem C3_group_admission_email_never_sent (env : Env) (t : DeliveryTarget)
    (h : t.notification_type = some "group_admission_requests") :
    user_preferences env t "email" (notification_resource_type t) ≠ .bypass ∧
    send_email_notification env t = .ok .skipped := by
  have hrt : notification_resource_type t = some "group_admission_requests" := by
    unfold notification_resource_type
    rw [h]
    rfl
  have hnb : user_preferences env t "email" (notification_resource_type t) ≠ .bypass := by
    rw [hrt]
    exact user_preferences_ne_bypass env t "email" "group_admission_requests" (by decide)
  refine ⟨hnb, ?_⟩
  unfold send_email_notification
  rw [hrt] at hnb ⊢
  cases hp : user_preferences env t "email" (some "group_admission_requests") with
  | nothing => simp [hp]
  | bypass => exact absurd hp hnb
  | somePrefs m =>
    have hsubj : email_subject env t (some "group_admission_requests") = none := rfl
    simp [hp, hsubj]

/-- Witness for C3: a concrete group-admission target with email sending
configured and a contact email present still produces no email. -/
theorem C3_witness :
    t3.notification_type = some "group_admission_requests" ∧
    env3.emailEnabled = true ∧
    (t3.user.bind (·.contact_email)).isSome = true ∧
    send_email_notification env3 t3 = .ok .skipped :=
  ⟨rfl, rfl, rfl, (C3_group_admission_email_never_sent env3 t3 rfl).2⟩

/-- Claim C4 (code bug): `process_notifications` has no branch for the
`Spectrum` target class, so a Spectrum trigger is never dispatched to
`process_spectra_notification` (the resolver is dead code) and falls off
the end of the function returning `None` — while a handled kind such as
`Comment` is dispatched to its resolver. -/
theorem C4_spectrum_trigger_not_dispatched (st : Store) (tid : Nat) (aid : Option Int)
    (oid : Option String) :
    process_notifications st
      { target_class_name := "Spectrum", target_id := tid, allocation_id := aid,
        obj_id := oid } = .ok none ∧
    process_notifications st
      { target_class_name := "Comment", target_id := tid, allocation_id := aid,
        obj_id := oid } =
      (process_comment_notification st
        { target_class_name := "Comment", target_id := tid, allocation_id := aid,
          obj_id := oid }).map some :=
  ⟨rfl, rfl⟩

/-- Claim C6 (amended): a filter that does not split into three parts
raises an explicit error as soon as a property-set is examined (and a
non-numeric value or unknown operator raises once the filter's name was
found in the set); the error propagates uncaught out of the resolver, so
the processing run terminates — the event is dropped and the remaining
queued events are not processed by that worker run (the supervisor later
restarts the worker thread). -/
theorem C6_amended_malformed_filter :
    (∀ (st : Store) (d : EventData) (e : String) (rest : List CandidateItem),
       process_notifications st d = .error e →
       generate_notifications_run st (.dict d :: rest) = ([], some e)) ∧
    (∀ (pd : List (String × Rat)) (f : String) (fs : List String),
       (pySplit f ':').length ≠ 3 →
       props_pass pd (f :: fs) =
         .error "Invalid propertiesFilter value -- property filter must have 3 values") ∧
    (∀ (pd : List (String × Rat)) (f : String) (fs : List String) (p0 p1 p2 : String)
       (stored : Rat),
       pySplit f ':' = [p0, p1, p2] →
       pd.lookup (pyStrip p0) = some stored →
       parseFloat? (pyStrip p1) = none →
       props_pass pd (f :: fs) =
         .error "Invalid propertiesFilter value: could not convert string to float") ∧
    (∀ (pd : List (String × Rat)) (f : String) (fs : List String) (p0 p1 p2 : String)
       (stored v : Rat),
       pySplit f ':' = [p0, p1, p2] →
       pd.lookup (pyStrip p0) = some stored →
       parseFloat? (pyStrip p1) = some v →
       op_options.contains (pyStrip p2) = false →
       props_pass pd (f :: fs) = .error "Invalid operator") := by
  refine ⟨?_, ?_, ?_, ?_⟩
  · intro st d e rest hpe
    simp only [generate_notifications_run, hpe]
  · intro pd f fs hlen
    simp only [props_pass]
    cases hsp : pySplit f ':' with
    | nil => rfl
    | cons p0 tl =>
      cases tl with
      | nil => rfl
      | cons p1 tl2 =>
        cases tl2 with
        | nil => rfl
        | cons p2 tl3 =>
          cases tl3 with
          | cons p3 tl4 => rfl
          | nil => rw [hsp] at hlen; simp at hlen
  · intro pd f fs p0 p1 p2 stored hsp hlk hpf
    simp only [props_pass, hsp, hlk, hpf]
  · intro pd f fs p0 p1 p2 stored v hsp hlk hpf hop
    simp only [props_pass, hsp, hlk, hpf, hop, Bool.false_eq_true, if_false]

/-- Counterexample for C6 as stated: the malformed filter kills the whole
worker run ([] produced, the follow-up event behind it never processed,
though alone it produces one notification); and with zero property-sets,
or with the filter's name absent from the set, no error is raised at
all. -/
theorem C6_counterexample :
    generate_notifications_run st6 [.dict dBad, .dict dGood] =
      ([], some "Invalid propertiesFilter value -- property filter must have 3 values") ∧
    (generate_notifications_run st6 [.dict dGood]).1.length = 1 ∧
    (generate_notifications_run st6 [.dict dGood]).2 = none ∧
    process_gcn_notification st6b dBad = .ok (some []) ∧
    gcn_properties_check [[("x", (1 : Rat))]] ["mstar:abc:gt"] = .ok true :=
  ⟨rfl, rfl, rfl, rfl, rfl⟩

/-- Witness for C6: the malformed-filter event makes the resolver raise
and terminates the run. -/
theorem C6_witness :
    process_notifications st6 dBad =
      .error "Invalid propertiesFilter value -- property filter must have 3 values" ∧
    generate_notifications_run st6 [.dict dBad] =
      ([], some "Invalid propertiesFilter value -- property filter must have 3 values") :=
  ⟨rfl, C6_amended_malformed_filter.1 st6 dBad _ [] rfl⟩

/-- Claim C7 (code bug): a follow-up trigger with no request row and no
supplied allocation id makes the resolver dereference
`followup_request.status` on `None` — an uncaught `AttributeError` —
instead of completing with zero notifications (the branch condition
`not fr and alloc_id and obj_id or fr.status == "deleted"` evaluates its
second disjunct whenever the first is falsy). -/
theorem C7_missing_request_attribute_error :
    (st7.users.filter followupActive).length = 1 ∧
    d7.allocation_id = none ∧
    st7.followupRequests.find? (fun r => r.id == d7.target_id) = none ∧
    process_followup_request_notification st7 d7 =
      .error "AttributeError: NoneType object has no attribute status" :=
  ⟨rfl, rfl, rfl, rfl⟩

/-- Claim C9 (confirmed): when the follow-up request row exists with
status `deleted`, the resolver returns a deletion notification for
exactly the eligible users (follow-up notifications active and read
access to the request's allocation), and every notification's text uses
the request row's own allocation id — the trigger's `allocation_id` does
not appear in the statement at all, so the result is the same even when
a different id was supplied. -/
theorem C9_deleted_uses_request_allocation (st : Store) (d : EventData) (fr : FollowupRec)
    (hfind : st.followupRequests.find? (fun r => r.id == d.target_id) = some fr)
    (hdel : fr.status = "deleted") :
    ∃ l, process_followup_request_notification st d = .ok l ∧
      (∀ t ∈ l, t.text = followup_deleted_text d.obj_id fr.allocation_id ∧
        t.url = "/followup_requests") ∧
      (∀ u ∈ st.users.filter followupActive,
        allocation_readable st u fr.allocation_id = true →
        mk_target u (followup_deleted_text d.obj_id fr.allocation_id)
          "followup_requests" "/followup_requests" none ∈ l) := by
  have hst : (fr.status == "deleted") = true := by rw [hdel]; rfl
  unfold process_followup_request_notification
  rw [hfind]
  by_cases hemp : (st.users.filter followupActive).isEmpty = true
  · rw [if_pos hemp]
    refine ⟨[], rfl, by simp, ?_⟩
    intro u hu
    rw [List.isEmpty_iff.mp hemp] at hu
    exact absurd hu (List.not_mem_nil u)
  · rw [if_neg hemp]
    simp only [Option.isNone_some, Bool.false_and, Bool.false_eq_true, if_false, hst]
    refine ⟨_, rfl, ?_, ?_⟩
    · intro t ht
      obtain ⟨u, _, rfl⟩ :=
        (followup_loop_spec st fr.allocation_id _ (st.users.filter followupActive)).1 t ht
      exact ⟨rfl, rfl⟩
    · intro u hu hr
      exact (followup_loop_spec st fr.allocation_id _
        (st.users.filter followupActive)).2 u hu hr

/-- Witness for C9: the trigger supplies allocation id 9 but the deleted
request's own allocation id 2 is used in the notification text. -/
theorem C9_witness :
    st9.followupRequests.find? (fun r => r.id == d9.target_id) = some fr9 ∧
    fr9.status = "deleted" ∧
    d9.allocation_id = some 9 ∧
    fr9.allocation_id = 2 ∧
    (∃ l, process_followup_request_notification st9 d9 = .ok l ∧
      (∀ t ∈ l, t.text = followup_deleted_text d9.obj_id fr9.allocation_id ∧
        t.url = "/followup_requests") ∧
      (∀ u ∈ st9.users.filter followupActive,
        allocation_readable st9 u fr9.allocation_id = true →
        mk_target u (followup_deleted_text d9.obj_id fr9.allocation_id)
          "followup_requests" "/followup_requests" none ∈ l)) :=
  ⟨rfl, rfl, rfl, rfl, C9_deleted_uses_request_allocation st9 d9 fr9 rfl rfl⟩

/-- Claim C10 (confirmed): any successfully decoded JSON payload is
enqueued and answered with success even when it is not an object; the
candidate processor silently discards a non-object queue entry (no
notifications, no error), and the delivery worker silently discards a
non-object delivery-queue entry (no channel attempted, no error). -/
theorem C10_non_object_payloads (c : CandidateItem) (q : List CandidateItem) (st : Store)
    (env : Env) (dl : DeliveryItem) (hc : c.isDictB = false) (hd : dl.isDictB = false) :
    api_post (some c) q = (.success, q ++ [c]) ∧
    generate_notifications_run st [c] = ([], none) ∧
    send_notifications_step env dl = none := by
  refine ⟨rfl, ?_, ?_⟩
  · cases c with
    | dict d => simp [CandidateItem.isDictB] at hc
    | arr => rfl
    | strv s => rfl
    | numv n => rfl
    | boolv b => rfl
    | nullv => rfl
  · cases dl with
    | dict t => simp [DeliveryItem.isDictB] at hd
    | arr => rfl
    | strv s => rfl
    | numv n => rfl
    | boolv b => rfl
    | nullv => rfl

/-- Witness for C10 with a JSON string in the candidate queue and a JSON
number in the delivery queue. -/
theorem C10_witness :
    CandidateItem.isDictB (.strv "x") = false ∧
    DeliveryItem.isDictB (.numv 3) = false ∧
    (api_post (some (.strv "x")) [] = (.success, [CandidateItem.strv "x"]) ∧
     generate_notifications_run {} [.strv "x"] = ([], none) ∧
     send_notifications_step {} (.numv 3) = none) :=
  ⟨rfl, rfl, C10_non_object_payloads (.strv "x") [] {} {} (.numv 3) rfl rfl⟩

end NotifQ
